import Mathlib

/-!
Shallow embedding of the simulation and collision engine of `src/src/game/GameEngine.js`
(the power-up-bearing variant that the specification follows).

JavaScript floating-point numbers are idealized as real numbers.  The one place where the
source can produce a non-finite value (an unguarded division by a zero distance, which in
JS yields NaN and is then written into an obstacle's speed field) is modelled by an
`Option` result: `none` encodes "a non-finite value was written".  Randomness
(`Math.random()`) is modelled by an explicit stream `Rng : Nat → Real` together with a
draw counter that is threaded through every function in the order of the source's calls.
`Date.now()` is modelled by an explicit `now : Real` parameter.
-/

namespace LifeEscape

open Classical

noncomputable section

/-- Stream of random draws; each `Math.random()` call reads the next index. -/
abbrev Rng := ℕ → ℝ

/-! ### Constants from the `GameEngine` constructor -/

def elasticity : ℝ := 0.8

def friction : ℝ := 0.99

def entranceProtectionRadius : ℝ := 150

def entranceProtectionForce : ℝ := 0.8

def playerRadiusC : ℝ := 20

/-- `minShapeSize = player.radius * 0.5`. -/
def minShapeSize : ℝ := playerRadiusC * 0.5

def stuckThreshold : ℝ := 2000

def positionChangeThreshold : ℝ := 5

def shapeShifterCooldownTime : ℝ := 1000

/-- The entrance rectangle has `x = 0`. -/
def entranceX : ℝ := 0

/-- The entrance rectangle has `y = canvas.height / 2 - 50`. -/
def entranceY (h : ℝ) : ℝ := h / 2 - 50

/-- The entrance rectangle has `height = 100`. -/
def entranceHeight : ℝ := 100

/-- The fixed list of shape kinds (`this.shapeTypes`). -/
def shapeTypes : List String :=
  ["triangle", "square", "rectangle", "ellipse", "star",
   "pentagon", "hexagon", "octagon", "diamond", "cross",
   "heart", "moon", "cloud", "lightning", "spiral"]

/-- Base/light color pairs (`this.obstacleColors`). -/
def obstacleColors : List (String × String) :=
  [("#FF0000", "#FF6666"), ("#FF4500", "#FF8C66"), ("#FFA500", "#FFC266"),
   ("#FFD700", "#FFE666"), ("#FFFF00", "#FFFF66"), ("#9ACD32", "#B8E666"),
   ("#32CD32", "#66E666"), ("#008000", "#66B866")]

/-- Static data of one entry of `this.superPowers` (the `effect` closures are modelled
separately at their call sites). -/
structure Power where
  name : String
  duration : ℝ
  color : String

/-- Lookup `this.superPowers[shape]`: `some` exactly on the three power keys. -/
def superPowers (shape : String) : Option Power :=
  if shape = "star" then some ⟨"Shape Shifter", 5000, "#FFD700"⟩
  else if shape = "star_eliminator" then some ⟨"Shape Eliminator", 2000, "#FF69B4"⟩
  else if shape = "star_reducer" then some ⟨"Size Reducer", 3000, "#00FFFF"⟩
  else none

/-! ### Data model -/

structure Obstacle where
  x : ℝ
  y : ℝ
  size : ℝ
  color : String
  lightColor : String
  shape : String
  speedX : ℝ
  speedY : ℝ
  baseSpeed : ℝ
  isBlind : Bool
  blindTimer : ℝ
  blindDuration : ℝ
  lastBlindTime : ℝ
  rotation : ℝ
  rotationSpeed : ℝ
  blindChance : ℝ
  blindMin : ℝ
  blindMax : ℝ
  chaseAccuracy : ℝ

structure Player where
  x : ℝ
  y : ℝ
  radius : ℝ
  speed : ℝ
  infected : Bool
  infectionProgress : ℝ
  trail : List (ℝ × ℝ)

structure PlayerPower where
  active : Bool
  type : Option String
  endTime : ℝ
  hasPower : Bool

/-- The `playerPower` object as initialized in the constructor (the `setInterval`
handle and the unused `affectedShapes` set are not part of the simulation state). -/
def initialPlayerPower : PlayerPower :=
  { active := false, type := none, endTime := 0, hasPower := false }

structure Particle where
  x : ℝ
  y : ℝ
  vx : ℝ
  vy : ℝ
  radius : ℝ
  color : String
  life : ℝ

structure GameOverDisplay where
  visible : Bool
  alpha : ℝ
  targetAlpha : ℝ
  startTime : ℝ

structure ShifterCooldown where
  active : Bool
  lastChange : ℝ

structure Keys where
  up : Bool
  down : Bool
  left : Bool
  right : Bool

structure GameState where
  width : ℝ
  height : ℝ
  level : ℕ
  gameOver : Bool
  success : Bool
  playerPower : PlayerPower
  player : Player
  obstacles : List Obstacle
  particles : List Particle
  stuckTimer : ℝ
  lastPlayerPosition : ℝ × ℝ
  gameOverDisplay : GameOverDisplay
  shifterCooldown : ShifterCooldown

/-! ### Geometry and collision utilities -/

/-- `calculateSizeBasedSpeed(size)` from the source, a straight-line interpolation. -/
def calculateSizeBasedSpeed (size : ℝ) : ℝ :=
  let minSize : ℝ := 30
  let maxSize : ℝ := 90
  let speedRange : ℝ := 2.0 - 0.5
  let sizeRatio : ℝ := (size - minSize) / (maxSize - minSize)
  2.0 - (speedRange * sizeRatio)

/-- The per-shape collision radius table in `checkCollision`. -/
def collisionRadius (shape : String) (size : ℝ) : ℝ :=
  if shape = "triangle" then size * 0.5
  else if shape = "square" then size * 0.707
  else if shape = "rectangle" then size * 1.25
  else if shape = "ellipse" then size * 1.25
  else if shape = "star" then size * 0.5
  else if shape = "pentagon" then size * 0.688
  else if shape = "hexagon" then size * 0.866
  else if shape = "octagon" then size * 0.924
  else if shape = "diamond" then size * 0.707
  else if shape = "cross" then size * 0.65
  else if shape = "heart" then size * 0.75
  else if shape = "moon" then size * 0.85
  else if shape = "cloud" then size * 0.6
  else if shape = "lightning" then size * 0.5
  else if shape = "spiral" then size * 0.6
  else size * 0.8

/-- `checkCollision(player, obstacle)`. -/
def checkCollision (p : Player) (o : Obstacle) : Prop :=
  let dx := p.x - o.x
  let dy := p.y - o.y
  let distance := Real.sqrt (dx * dx + dy * dy)
  distance < p.radius + collisionRadius o.shape o.size

/-- `handleObstacleCollision(obstacle1, obstacle2)`.  When `distance = 0` the JS code
computes a NaN normal, so `relativeVelocity < 0` is false and nothing is mutated; the
embedding makes that case an explicit no-op branch. -/
def handleObstacleCollision (o1 o2 : Obstacle) : Obstacle × Obstacle :=
  let dx := o2.x - o1.x
  let dy := o2.y - o1.y
  let distance := Real.sqrt (dx * dx + dy * dy)
  let minDistance := o1.size + o2.size
  if distance < minDistance then
    if distance = 0 then (o1, o2)
    else
      let nx := dx / distance
      let ny := dy / distance
      let relativeVelocityX := o2.speedX - o1.speedX
      let relativeVelocityY := o2.speedY - o1.speedY
      let relativeVelocity := relativeVelocityX * nx + relativeVelocityY * ny
      if relativeVelocity < 0 then
        let impulse := -(1 + elasticity) * relativeVelocity
        let impulseX := impulse * nx
        let impulseY := impulse * ny
        let overlap := minDistance - distance
        let separationX := nx * overlap * 0.5
        let separationY := ny * overlap * 0.5
        ({ o1 with
            speedX := o1.speedX - impulseX
            speedY := o1.speedY - impulseY
            x := o1.x - separationX
            y := o1.y - separationY },
         { o2 with
            speedX := o2.speedX + impulseX
            speedY := o2.speedY + impulseY
            x := o2.x + separationX
            y := o2.y + separationY })
      else (o1, o2)
  else (o1, o2)

/-! ### Power-up subsystem -/

/-- `activatePlayerPower(powerType)`: its only call site guards that `powerType` is a
key of `superPowers`, so the duration lookup is defaulted for out-of-domain arguments
(where JS would produce a NaN `endTime`).  The `setInterval` expiry poll is wall-clock
machinery outside the per-tick state. -/
def activatePlayerPower (now : ℝ) (powerType : String) (_pp : PlayerPower) : PlayerPower :=
  { active := true
    type := some powerType
    hasPower := true
    endTime := now + (((superPowers powerType).map Power.duration).getD 0) }

/-- `deactivatePlayerPower()`: clears the flags and the type; `endTime` is not reset. -/
def deactivatePlayerPower (pp : PlayerPower) : PlayerPower :=
  { pp with active := false, type := none, hasPower := false }

/-- `shape.size *= 0.9; shape.size = Math.max(shape.size, this.minShapeSize)` — the
`star_reducer` effect. -/
def applyReducer (o : Obstacle) : Obstacle :=
  { o with size := max (o.size * 0.9) minShapeSize }

/-- `Math.floor(r * n)` as a list index. -/
def randIndex (r : Rng) (k : ℕ) (n : ℕ) : ℕ :=
  Int.toNat ⌊r k * (n : ℝ)⌋

/-- The `star` (Shape Shifter) effect with its cooldown gate. -/
def applyShapeShifter (r : Rng) (k : ℕ) (now : ℝ) (cd : ShifterCooldown) (o : Obstacle) :
    ShifterCooldown × Obstacle × ℕ :=
  if ¬ cd.active ∨ now - cd.lastChange ≥ shapeShifterCooldownTime then
    let newShape := shapeTypes.getD (randIndex r k shapeTypes.length) "undefined"
    ({ active := true, lastChange := now }, { o with shape := newShape }, k + 1)
  else (cd, o, k)

/-! ### Particles -/

/-- `createParticles(x, y, color)`: pushes 10 particles, drawing `vx`, `vy`, `radius`
for each in that order. -/
def createParticles (r : Rng) (k : ℕ) (x y : ℝ) (color : String) (ps : List Particle) :
    List Particle × ℕ :=
  (ps ++ (List.range 10).map (fun i =>
    { x := x
      y := y
      vx := (r (k + 3 * i) - 0.5) * 4
      vy := (r (k + 3 * i + 1) - 0.5) * 4
      radius := r (k + 3 * i + 2) * 3
      color := color
      life := 1 }), k + 30)

def updateParticle (p : Particle) : Particle :=
  { p with x := p.x + p.vx, y := p.y + p.vy, life := p.life - 0.02 }

/-- `updateParticles()`: advance every particle and drop the ones with `life ≤ 0`. -/
def updateParticles (ps : List Particle) : List Particle :=
  (ps.map updateParticle).filter (fun p => 0 < p.life)

/-! ### Obstacle behavior (the per-obstacle part of `updateObstacles`) -/

/-- The blind-state transition at the top of the obstacle loop: a roll against
`blindChance` when not blind (the roll draw is only consumed then, as JS `&&`
short-circuits), then timer accumulation and expiry when blind. -/
def blindTransition (r : Rng) (k : ℕ) (now : ℝ) (o : Obstacle) : Obstacle × ℕ :=
  let ok : Obstacle × ℕ :=
    if ¬ o.isBlind then
      if r k < o.blindChance then
        ({ o with
            isBlind := true
            blindDuration := o.blindMin + r (k + 1) * (o.blindMax - o.blindMin)
            blindTimer := 0 }, k + 2)
      else (o, k + 1)
    else (o, k)
  let o1 := ok.1
  (if o1.isBlind then
     let t := o1.blindTimer + 16
     if t ≥ o1.blindDuration then
       { o1 with blindTimer := t, isBlind := false, lastBlindTime := now }
     else { o1 with blindTimer := t }
   else o1, ok.2)

/-- The entrance-protection repulsion nudge.  The source divides by
`distanceToEntrance` with no zero guard; at distance zero JS computes `0/0 = NaN` and
writes it into the speed fields, which the embedding records as `none`. -/
def entranceRepulsion (h : ℝ) (o : Obstacle) : Option Obstacle :=
  let dxToEntrance := o.x - entranceX
  let dyToEntrance := o.y - (entranceY h + entranceHeight / 2)
  let distanceToEntrance :=
    Real.sqrt (dxToEntrance * dxToEntrance + dyToEntrance * dyToEntrance)
  if distanceToEntrance < entranceProtectionRadius then
    if distanceToEntrance = 0 then none
    else
      let forceMagnitude :=
        entranceProtectionForce * (1 - distanceToEntrance / entranceProtectionRadius)
      some { o with
        speedX := o.speedX + dxToEntrance / distanceToEntrance * forceMagnitude
        speedY := o.speedY + dyToEntrance / distanceToEntrance * forceMagnitude }
  else some o

/-- The pursuit assignment for a non-blind obstacle, guarded by `distance > 0`. -/
def chaseMove (p : Player) (speed : ℝ) (o : Obstacle) : Obstacle :=
  let dx := p.x - o.x
  let dy := p.y - o.y
  let distance := Real.sqrt (dx * dx + dy * dy)
  if distance > 0 then
    { o with
        speedX := dx / distance * speed * o.chaseAccuracy
        speedY := dy / distance * speed * o.chaseAccuracy }
  else o

/-- The random-walk branch for a blind obstacle: perturb each component, then clamp
each component to `[-speed * 0.5, speed * 0.5]`. -/
def blindMove (r : Rng) (k : ℕ) (speed : ℝ) (o : Obstacle) : Obstacle × ℕ :=
  let sx := o.speedX + (r k - 0.5) * 0.2
  let sy := o.speedY + (r (k + 1) - 0.5) * 0.2
  let maxSpeed := speed * 0.5
  ({ o with
      speedX := max (-maxSpeed) (min maxSpeed sx)
      speedY := max (-maxSpeed) (min maxSpeed sy) }, k + 2)

/-- Horizontal bounce at the canvas bounds. -/
def bounceX (w : ℝ) (o : Obstacle) : Obstacle :=
  if o.x - o.size < 0 then { o with x := o.size, speedX := -o.speedX * elasticity }
  else if o.x + o.size > w then
    { o with x := w - o.size, speedX := -o.speedX * elasticity }
  else o

/-- Vertical bounce at the canvas bounds. -/
def bounceY (h : ℝ) (o : Obstacle) : Obstacle :=
  if o.y - o.size < 0 then { o with y := o.size, speedY := -o.speedY * elasticity }
  else if o.y + o.size > h then
    { o with y := h - o.size, speedY := -o.speedY * elasticity }
  else o

/-- Movement after the repulsion nudge: pursuit or blind walk, friction, position
integration, bounce.  The size-based speed only depends on `size`, which the repulsion
leaves unchanged, so computing it here matches the source computing it just before the
entrance check. -/
def motionAfterRepulsion (r : Rng) (k : ℕ) (w h : ℝ) (p : Player) (o : Obstacle) :
    Obstacle × ℕ :=
  let speed := calculateSizeBasedSpeed o.size
  let mk : Obstacle × ℕ :=
    if ¬ o.isBlind then (chaseMove p speed o, k)
    else blindMove r k speed o
  let o2 := mk.1
  let o3 := { o2 with speedX := o2.speedX * friction, speedY := o2.speedY * friction }
  let o4 := { o3 with x := o3.x + o3.speedX, y := o3.y + o3.speedY }
  (bounceY h (bounceX w o4), mk.2)

/-- One obstacle's rotation, blind transition, repulsion and movement for a tick
(`updateObstacles` lines before the collision passes). -/
def obstacleMotion (r : Rng) (k : ℕ) (now w h : ℝ) (p : Player) (o : Obstacle) :
    Option (Obstacle × ℕ) :=
  let o0 := { o with rotation := o.rotation + o.rotationSpeed }
  let bk := blindTransition r k now o0
  match entranceRepulsion h bk.1 with
  | none => none
  | some o2 => some (motionAfterRepulsion r bk.2 w h p o2)

/-! ### Player reset and collision dispatch -/

/-- `resetPlayer()`: reset position, infection, trail, flags, particles, stuck timer
and power (the game-over display is left to fade out on its own). -/
def resetPlayer (s : GameState) : GameState :=
  { s with
    player := { s.player with
      x := 50, y := s.height / 2, infected := false, infectionProgress := 0, trail := [] }
    gameOver := false
    success := false
    particles := []
    stuckTimer := 0
    playerPower := deactivatePlayerPower s.playerPower }

/-- `handleCollision(obstacle)`: outside the entrance protection radius, either steal a
power from a power-bearing obstacle (reassigning its shape from a fresh random draw
over `shapeTypes`), or — if no power is active — infect, flag game over, and reset the
player immediately.  Returns the updated state, the updated obstacle, and the new draw
counter. -/
def handleCollision (r : Rng) (k : ℕ) (now : ℝ) (s : GameState) (o : Obstacle) :
    GameState × Obstacle × ℕ :=
  let dxToEntrance := s.player.x - entranceX
  let dyToEntrance := s.player.y - (entranceY s.height + entranceHeight / 2)
  let distanceToEntrance :=
    Real.sqrt (dxToEntrance * dxToEntrance + dyToEntrance * dyToEntrance)
  if distanceToEntrance > entranceProtectionRadius then
    if (superPowers o.shape).isSome ∧ ¬ s.playerPower.hasPower then
      let powerColor := ((superPowers o.shape).map Power.color).getD ""
      let pp := activatePlayerPower now o.shape s.playerPower
      let pk := createParticles r k s.player.x s.player.y powerColor s.particles
      let newShape := shapeTypes.getD (randIndex r pk.2 shapeTypes.length) "undefined"
      ({ s with playerPower := pp, particles := pk.1 },
       { o with shape := newShape }, pk.2 + 1)
    else if ¬ s.playerPower.active then
      let pk := createParticles r k s.player.x s.player.y o.color s.particles
      let s1 := { s with
        player := { s.player with infected := true }
        particles := pk.1
        gameOver := true
        gameOverDisplay :=
          { visible := true, targetAlpha := 1, alpha := 0, startTime := now } }
      (resetPlayer s1, o, pk.2)
    else (s, o, k)
  else (s, o, k)

/-! ### The per-obstacle collision passes -/

/-- The inner `forEach` of `updateObstacles`: resolve the obstacle at index `i`
against every other index in turn, writing both participants back. -/
def pairwisePass (i : ℕ) (l : List Obstacle) : List Obstacle :=
  (List.range l.length).foldl
    (fun acc j =>
      if j = i then acc
      else
        match acc.get? i, acc.get? j with
        | some oi, some oj =>
          let res := handleObstacleCollision oi oj
          (acc.set i res.1).set j res.2
        | _, _ => acc)
    l

/-- The `if (this.checkCollision(this.player, obstacle)) this.handleCollision(obstacle)`
block for the obstacle at index `i`, writing the updated obstacle back. -/
def collisionHitPhase (r : Rng) (k : ℕ) (now : ℝ) (s : GameState) (i : ℕ) :
    GameState × ℕ :=
  match s.obstacles.get? i with
  | none => (s, k)
  | some o =>
    if checkCollision s.player o then
      let hc := handleCollision r k now s o
      ({ hc.1 with obstacles := hc.1.obstacles.set i hc.2.1 }, hc.2.2)
    else (s, k)

/-- The active-power effect block for the obstacle at index `i`: re-test the overlap,
dispatch the effect by power kind, and emit particles of the power's color. -/
def powerEffectPhase (r : Rng) (k : ℕ) (now : ℝ) (s : GameState) (i : ℕ) :
    GameState × ℕ :=
  match s.obstacles.get? i with
  | none => (s, k)
  | some o1 =>
    if s.playerPower.active ∧ checkCollision s.player o1 then
      match s.playerPower.type with
      | some t =>
        let powerColor := ((superPowers t).map Power.color).getD ""
        if t = "star" then
          let res := applyShapeShifter r k now s.shifterCooldown o1
          let s2 := { s with
            shifterCooldown := res.1
            obstacles := s.obstacles.set i res.2.1 }
          let pk := createParticles r res.2.2 o1.x o1.y powerColor s2.particles
          ({ s2 with particles := pk.1 }, pk.2)
        else if t = "star_eliminator" then
          let s2 := { s with obstacles := s.obstacles.eraseIdx i }
          let pk := createParticles r k o1.x o1.y powerColor s2.particles
          ({ s2 with particles := pk.1 }, pk.2)
        else if t = "star_reducer" then
          let s2 := { s with obstacles := s.obstacles.set i (applyReducer o1) }
          let pk := createParticles r k o1.x o1.y powerColor s2.particles
          ({ s2 with particles := pk.1 }, pk.2)
        else (s, k)
      | none => (s, k)
    else (s, k)

/-- Player collision and active-power effect for the obstacle at index `i`.  The
collision test runs again before the effect (the steal may have changed the shape and
activated the power in the same tick, as in the source). -/
def playerCollisionPhase (r : Rng) (k : ℕ) (now : ℝ) (s : GameState) (i : ℕ) :
    GameState × ℕ :=
  let sk1 := collisionHitPhase r k now s i
  powerEffectPhase r sk1.2 now sk1.1 i

/-- One iteration of the outer `forEach` of `updateObstacles` for index `i`.  A `none`
from the motion phase records a non-finite speed write; an index vacated by an
eliminator splice is skipped like JS `forEach` does. -/
def obstacleStep (r : Rng) (now : ℝ) (sk : GameState × ℕ) (i : ℕ) :
    Option (GameState × ℕ) :=
  let s := sk.1
  let k := sk.2
  match s.obstacles.get? i with
  | none => some (s, k)
  | some o =>
    match obstacleMotion r k now s.width s.height s.player o with
    | none => none
    | some ok =>
      let l := pairwisePass i (s.obstacles.set i ok.1)
      some (playerCollisionPhase r ok.2 now { s with obstacles := l } i)

/-- `updateObstacles()`: iterate over the indices present at entry. -/
def updateObstacles (r : Rng) (now : ℝ) (s : GameState) (k : ℕ) :
    Option (GameState × ℕ) :=
  (List.range s.obstacles.length).foldlM (fun sk i => obstacleStep r now sk i) (s, k)

/-! ### Level/session manager -/

/-- `createInitialObstacles()`: one regular shape, then a 30% roll for a power shape;
the draws follow the source's evaluation order. -/
def createInitialObstacles (r : Rng) (k : ℕ) (w h : ℝ) : List Obstacle × ℕ :=
  let regularShape := shapeTypes.getD (randIndex r k shapeTypes.length) "undefined"
  let c := obstacleColors.getD (randIndex r (k + 1) obstacleColors.length) ("", "")
  let shape : Obstacle :=
    { x := r (k + 2) * (w - 100) + 50
      y := r (k + 3) * (h - 100) + 50
      size := 40
      color := c.1
      lightColor := c.2
      shape := regularShape
      speedX := 0
      speedY := 0
      baseSpeed := 2
      isBlind := false
      blindTimer := 0
      blindDuration := 0
      lastBlindTime := 0
      rotation := r (k + 4) * (Real.pi * 2)
      rotationSpeed := (r (k + 5) - 0.5) * 0.02
      blindChance := 0.3
      blindMin := 1000
      blindMax := 3000
      chaseAccuracy := 0.5 + r (k + 6) * 0.5 }
  if r (k + 7) < 0.3 then
    let powerType :=
      (["star", "star_eliminator", "star_reducer"] : List String).getD
        (randIndex r (k + 8) 3) "undefined"
    let c2 := obstacleColors.getD (randIndex r (k + 9) obstacleColors.length) ("", "")
    let superShape : Obstacle :=
      { x := r (k + 10) * (w - 100) + 50
        y := r (k + 11) * (h - 100) + 50
        size := 40
        color := c2.1
        lightColor := c2.2
        shape := powerType
        speedX := 0
        speedY := 0
        baseSpeed := 2
        isBlind := false
        blindTimer := 0
        blindDuration := 0
        lastBlindTime := 0
        rotation := r (k + 12) * (Real.pi * 2)
        rotationSpeed := (r (k + 13) - 0.5) * 0.02
        blindChance := 0.3
        blindMin := 1000
        blindMax := 3000
        chaseAccuracy := 0.5 + r (k + 14) * 0.5 }
    ([shape, superShape], k + 15)
  else ([shape], k + 8)

/-- `resetLevel()`: player, flags, particles, power, game-over display, and a fresh
random obstacle set. -/
def resetLevel (r : Rng) (k : ℕ) (s : GameState) : GameState × ℕ :=
  let obs := createInitialObstacles r k s.width s.height
  ({ s with
      player := { s.player with
        x := 50, y := s.height / 2, infected := false, infectionProgress := 0, trail := [] }
      gameOver := false
      success := false
      particles := []
      stuckTimer := 0
      playerPower := deactivatePlayerPower s.playerPower
      gameOverDisplay := { s.gameOverDisplay with visible := false, targetAlpha := 0, alpha := 0 }
      obstacles := obs.1 }, obs.2)

/-- `nextLevel()`: bump the level, drop power-bearing obstacles, spawn one new regular
obstacle (and a power obstacle with probability 0.3), then reset the player. -/
def nextLevel (r : Rng) (k : ℕ) (s : GameState) : GameState × ℕ :=
  let s0 := { s with level := s.level + 1 }
  let kept := s0.obstacles.filter (fun o => ¬ (superPowers o.shape).isSome)
  let regularShape := shapeTypes.getD (randIndex r k shapeTypes.length) "undefined"
  let c := obstacleColors.getD (randIndex r (k + 1) obstacleColors.length) ("", "")
  let newObstacle : Obstacle :=
    { x := r (k + 2) * (s0.width - 100) + 50
      y := r (k + 3) * (s0.height - 100) + 50
      size := max (30 + r (k + 4) * 60) minShapeSize
      color := c.1
      lightColor := c.2
      shape := regularShape
      speedX := 0
      speedY := 0
      baseSpeed := 2
      isBlind := false
      blindTimer := 0
      blindDuration := 0
      lastBlindTime := 0
      rotation := r (k + 5) * (Real.pi * 2)
      rotationSpeed := (r (k + 6) - 0.5) * 0.02
      blindChance := 0.2 + r (k + 7) * 0.2
      blindMin := 1000 + r (k + 8) * 1000
      blindMax := 2000 + r (k + 9) * 2000
      chaseAccuracy := 0.3 + r (k + 10) * 0.7 }
  let withNew := kept ++ [newObstacle]
  let lk : List Obstacle × ℕ :=
    if r (k + 11) < 0.3 then
      let powerType :=
        (["star", "star_eliminator", "star_reducer"] : List String).getD
          (randIndex r (k + 12) 3) "undefined"
      let c2 := obstacleColors.getD (randIndex r (k + 13) obstacleColors.length) ("", "")
      let superShape : Obstacle :=
        { x := r (k + 14) * (s0.width - 100) + 50
          y := r (k + 15) * (s0.height - 100) + 50
          size := max (30 + r (k + 16) * 60) minShapeSize
          color := c2.1
          lightColor := c2.2
          shape := powerType
          speedX := 0
          speedY := 0
          baseSpeed := 2
          isBlind := false
          blindTimer := 0
          blindDuration := 0
          lastBlindTime := 0
          rotation := r (k + 17) * (Real.pi * 2)
          rotationSpeed := (r (k + 18) - 0.5) * 0.02
          blindChance := 0.2 + r (k + 19) * 0.2
          blindMin := 1000 + r (k + 20) * 1000
          blindMax := 2000 + r (k + 21) * 2000
          chaseAccuracy := 0.3 + r (k + 22) * 0.7 }
      (withNew ++ [superShape], k + 23)
    else (withNew, k + 12)
  (resetPlayer { s0 with obstacles := lk.1 }, lk.2)

/-! ### Player motion controller -/

/-- `updatePlayerTrail()`: push the current position in front, cap at 10. -/
def updatePlayerTrail (p : Player) : Player :=
  let t := (p.x, p.y) :: p.trail
  { p with trail := if t.length > 10 then t.dropLast else t }

/-- `checkExitCollision()`: AABB overlap with the exit rectangle at
`(width - 20, height / 2 - 50)` of size `20 × 100`. -/
def checkExitCollision (s : GameState) : Prop :=
  s.player.x + s.player.radius > s.width - 20 ∧
  s.player.x - s.player.radius < (s.width - 20) + 20 ∧
  s.player.y + s.player.radius > s.height / 2 - 50 ∧
  s.player.y - s.player.radius < (s.height / 2 - 50) + 100

/-- `checkIfStuck()`: accumulate 16 ms per tick while near the entrance and barely
moving; force a level reset past the threshold. -/
def checkIfStuck (r : Rng) (k : ℕ) (s : GameState) : GameState × ℕ :=
  let dx := s.player.x - s.lastPlayerPosition.1
  let dy := s.player.y - s.lastPlayerPosition.2
  let distanceMoved := Real.sqrt (dx * dx + dy * dy)
  let isNearEntrance := s.player.x < 100
  if isNearEntrance ∧ distanceMoved < positionChangeThreshold then
    let s1 := { s with stuckTimer := s.stuckTimer + 16 }
    if s1.stuckTimer ≥ stuckThreshold then
      let res := resetLevel r k s1
      ({ res.1 with stuckTimer := 0 }, res.2)
    else (s1, k)
  else ({ s with stuckTimer := 0 }, k)

/-- The keyboard and touch movement block of `updatePlayer()` (a touch at coordinate 0
is falsy in JS, modelled by `none`). -/
def movePlayer (keys : Keys) (touch : Option (ℝ × ℝ)) (p : Player) : Player :=
  let p := if keys.up then { p with y := p.y - p.speed } else p
  let p := if keys.down then { p with y := p.y + p.speed } else p
  let p := if keys.left then { p with x := p.x - p.speed } else p
  let p := if keys.right then { p with x := p.x + p.speed } else p
  match touch with
  | some tp =>
    let dx := tp.1 - p.x
    let dy := tp.2 - p.y
    let distance := Real.sqrt (dx * dx + dy * dy)
    if distance > 5 then
      { p with x := p.x + dx / distance * p.speed, y := p.y + dy / distance * p.speed }
    else p
  | none => p

/-- The keep-in-bounds clamp of `updatePlayer()`. -/
def clampPlayer (w h : ℝ) (p : Player) : Player :=
  { p with
    x := max p.radius (min (w - p.radius) p.x)
    y := max p.radius (min (h - p.radius) p.y) }

/-- `updatePlayer()`: record the previous position, apply keyboard then touch intent,
clamp to the canvas, update the trail, detect the exit, and run stuck detection.  The
`onSuccess` callback is an external notification and does not change simulation
state. -/
def updatePlayer (r : Rng) (k : ℕ) (keys : Keys) (touch : Option (ℝ × ℝ))
    (s : GameState) : GameState × ℕ :=
  let s0 := { s with lastPlayerPosition := (s.player.x, s.player.y) }
  let p := updatePlayerTrail (clampPlayer s0.width s0.height (movePlayer keys touch s0.player))
  let s1 := { s0 with player := p }
  let s2 := if checkExitCollision s1 then { s1 with success := true } else s1
  checkIfStuck r k s2

/-! ### The per-tick update -/

/-- `update()`: the whole simulation tick, skipped entirely while `success` holds. -/
def update (r : Rng) (k : ℕ) (keys : Keys) (touch : Option (ℝ × ℝ)) (now : ℝ)
    (s : GameState) : Option (GameState × ℕ) :=
  if ¬ s.success then
    let up := updatePlayer r k keys touch s
    match updateObstacles r now up.1 up.2 with
    | none => none
    | some sk => some ({ sk.1 with particles := updateParticles sk.1.particles }, sk.2)
  else some (s, k)

/-! ### Concrete scenario fixtures used by the theorems below -/

/-- A constant random stream. -/
def constRng (q : ℝ) : Rng := fun _ => q

/-- No key pressed. -/
def noKeys : Keys := { up := false, down := false, left := false, right := false }

/-- A neutral game-over display. -/
def displayOff : GameOverDisplay :=
  { visible := false, alpha := 0, targetAlpha := 0, startTime := 0 }

/-- An idle shape-shifter cooldown. -/
def cooldownOff : ShifterCooldown := { active := false, lastChange := 0 }

/-- The player as spawned by the constructor for an 800x600 canvas, placed at `(px, py)`. -/
def playerAt (px py : ℝ) : Player :=
  { x := px, y := py, radius := 20, speed := 8, infected := false,
    infectionProgress := 0, trail := [] }

/-- A power-bearing obstacle overlapping the player at `(400, 300)`, used for the
steal-branch scenario. -/
def stealObs : Obstacle :=
  { x := 400, y := 300, size := 40, color := "#FF0000", lightColor := "#FF6666",
    shape := "star_reducer", speedX := 0, speedY := 0, baseSpeed := 2,
    isBlind := false, blindTimer := 0, blindDuration := 0, lastBlindTime := 0,
    rotation := 0, rotationSpeed := 0, blindChance := 0.3,
    blindMin := 1000, blindMax := 3000, chaseAccuracy := 1 }

/-- State for the steal-branch scenario: player at `(400, 300)`, well outside the
entrance protection radius, holding no power. -/
def stealState : GameState :=
  { width := 800, height := 600, level := 1, gameOver := false, success := false,
    playerPower := initialPlayerPower, player := playerAt 400 300,
    obstacles := [stealObs], particles := [], stuckTimer := 0,
    lastPlayerPosition := (0, 0), gameOverDisplay := displayOff,
    shifterCooldown := cooldownOff }

/-- A state with the player at `(50, 300)`, strictly inside the entrance protection
radius of a 600-high canvas. -/
def protState : GameState :=
  { width := 800, height := 600, level := 1, gameOver := false, success := false,
    playerPower := initialPlayerPower, player := playerAt 50 300,
    obstacles := [], particles := [], stuckTimer := 0,
    lastPlayerPosition := (0, 0), gameOverDisplay := displayOff,
    shifterCooldown := cooldownOff }

/-- A state with `success` already set, for the frozen-tick theorems. -/
def frozenState : GameState :=
  { width := 800, height := 600, level := 3, gameOver := false, success := true,
    playerPower := initialPlayerPower, player := playerAt 400 300,
    obstacles := [], particles := [], stuckTimer := 0,
    lastPlayerPosition := (0, 0), gameOverDisplay := displayOff,
    shifterCooldown := cooldownOff }

/-- A state with no obstacles and the player mid-field, for tick-level witnesses. -/
def emptyFieldState : GameState :=
  { width := 800, height := 600, level := 1, gameOver := false, success := false,
    playerPower := initialPlayerPower, player := playerAt 400 300,
    obstacles := [], particles := [], stuckTimer := 0,
    lastPlayerPosition := (0, 0), gameOverDisplay := displayOff,
    shifterCooldown := cooldownOff }

/-- A blind obstacle with preset speed `(5, 5)` and size 30, for the blind speed clamp
scenario. -/
def blindFastObs : Obstacle :=
  { x := 400, y := 300, size := 30, color := "#FF0000", lightColor := "#FF6666",
    shape := "square", speedX := 5, speedY := 5, baseSpeed := 2,
    isBlind := true, blindTimer := 0, blindDuration := 10000, lastBlindTime := 0,
    rotation := 0, rotationSpeed := 0, blindChance := 0,
    blindMin := 1000, blindMax := 3000, chaseAccuracy := 1 }

/-- An obstacle sitting exactly on the entrance midpoint of a 600-high canvas. -/
def midpointObs : Obstacle :=
  { x := 0, y := 300, size := 40, color := "#FF0000", lightColor := "#FF6666",
    shape := "triangle", speedX := 0, speedY := 0, baseSpeed := 2,
    isBlind := false, blindTimer := 0, blindDuration := 0, lastBlindTime := 0,
    rotation := 0, rotationSpeed := 0, blindChance := 0,
    blindMin := 1000, blindMax := 3000, chaseAccuracy := 1 }

/-- Out-of-bounds scenario, obstacle A: blind and motionless next to the right wall. -/
def wallObsA : Obstacle :=
  { x := 759, y := 300, size := 40, color := "#FF0000", lightColor := "#FF6666",
    shape := "triangle", speedX := 0, speedY := 0, baseSpeed := 2,
    isBlind := true, blindTimer := 0, blindDuration := 10000, lastBlindTime := 0,
    rotation := 0, rotationSpeed := 0, blindChance := 0,
    blindMin := 1000, blindMax := 3000, chaseAccuracy := 1 }

/-- Out-of-bounds scenario, obstacle B: blind, overlapping A and drifting toward it. -/
def wallObsB : Obstacle :=
  { x := 700, y := 300, size := 40, color := "#FF0000", lightColor := "#FF6666",
    shape := "triangle", speedX := 0.8, speedY := 0, baseSpeed := 2,
    isBlind := true, blindTimer := 0, blindDuration := 10000, lastBlindTime := 0,
    rotation := 0, rotationSpeed := 0, blindChance := 0,
    blindMin := 1000, blindMax := 3000, chaseAccuracy := 1 }

/-- Out-of-bounds scenario: 800x600 canvas, player far from both obstacles and from
the exit, obstacles A and B overlapping near the right wall. -/
def wallState : GameState :=
  { width := 800, height := 600, level := 1, gameOver := false, success := false,
    playerPower := initialPlayerPower, player := playerAt 400 300,
    obstacles := [wallObsA, wallObsB], particles := [], stuckTimer := 0,
    lastPlayerPosition := (0, 0), gameOverDisplay := displayOff,
    shifterCooldown := cooldownOff }

/-- Expected end-of-tick obstacle A: the separation step has pushed it to
`x = 769.5 > 800 - 40`, outside the bounds the bounce step enforces. -/
def wallObsAEnd : Obstacle :=
  { x := 769.5, y := 300, size := 40, color := "#FF0000", lightColor := "#FF6666",
    shape := "triangle", speedX := 1.44, speedY := 0, baseSpeed := 2,
    isBlind := true, blindTimer := 16, blindDuration := 10000, lastBlindTime := 0,
    rotation := 0, rotationSpeed := 0, blindChance := 0,
    blindMin := 1000, blindMax := 3000, chaseAccuracy := 1 }

/-- Expected end-of-tick obstacle B. -/
def wallObsBEnd : Obstacle :=
  { x := 688.8664, y := 300, size := 40, color := "#FF0000", lightColor := "#FF6666",
    shape := "triangle", speedX := -0.6336, speedY := 0, baseSpeed := 2,
    isBlind := true, blindTimer := 16, blindDuration := 10000, lastBlindTime := 0,
    rotation := 0, rotationSpeed := 0, blindChance := 0,
    blindMin := 1000, blindMax := 3000, chaseAccuracy := 1 }

/-- The player of the out-of-bounds scenario after the trail update. -/
def wallP1 : Player :=
  { x := 400, y := 300, radius := 20, speed := 8, infected := false,
    infectionProgress := 0, trail := [(400, 300)] }

/-- Obstacle A after its motion phase: only the blind timer has advanced. -/
def wallObsA1 : Obstacle :=
  { x := 759, y := 300, size := 40, color := "#FF0000", lightColor := "#FF6666",
    shape := "triangle", speedX := 0, speedY := 0, baseSpeed := 2,
    isBlind := true, blindTimer := 16, blindDuration := 10000, lastBlindTime := 0,
    rotation := 0, rotationSpeed := 0, blindChance := 0,
    blindMin := 1000, blindMax := 3000, chaseAccuracy := 1 }

/-- Obstacle B after A's pairwise resolution pushed it back. -/
def wallObsBMid : Obstacle :=
  { x := 689.5, y := 300, size := 40, color := "#FF0000", lightColor := "#FF6666",
    shape := "triangle", speedX := -0.64, speedY := 0, baseSpeed := 2,
    isBlind := true, blindTimer := 0, blindDuration := 10000, lastBlindTime := 0,
    rotation := 0, rotationSpeed := 0, blindChance := 0,
    blindMin := 1000, blindMax := 3000, chaseAccuracy := 1 }

/-- The out-of-bounds scenario after the player update. -/
def wallS1 : GameState :=
  { width := 800, height := 600, level := 1, gameOver := false, success := false,
    playerPower := initialPlayerPower, player := wallP1,
    obstacles := [wallObsA, wallObsB], particles := [], stuckTimer := 0,
    lastPlayerPosition := (400, 300), gameOverDisplay := displayOff,
    shifterCooldown := cooldownOff }

/-- The out-of-bounds scenario after obstacle A's iteration: A now sits at
`x = 769.5`, beyond `width - size = 760`. -/
def wallS2 : GameState :=
  { width := 800, height := 600, level := 1, gameOver := false, success := false,
    playerPower := initialPlayerPower, player := wallP1,
    obstacles := [wallObsAEnd, wallObsBMid], particles := [], stuckTimer := 0,
    lastPlayerPosition := (400, 300), gameOverDisplay := displayOff,
    shifterCooldown := cooldownOff }

/-- Expected end-of-tick state for the out-of-bounds scenario. -/
def wallStateEnd : GameState :=
  { width := 800, height := 600, level := 1, gameOver := false, success := false,
    playerPower := initialPlayerPower, player := wallP1,
    obstacles := [wallObsAEnd, wallObsBEnd], particles := [], stuckTimer := 0,
    lastPlayerPosition := (400, 300), gameOverDisplay := displayOff,
    shifterCooldown := cooldownOff }

/-- Expected end-of-tick state for the empty-field witness scenario. -/
def emptyFieldEnd : GameState :=
  { width := 800, height := 600, level := 1, gameOver := false, success := false,
    playerPower := initialPlayerPower, player := wallP1,
    obstacles := [], particles := [], stuckTimer := 0,
    lastPlayerPosition := (400, 300), gameOverDisplay := displayOff,
    shifterCooldown := cooldownOff }

/-- Separation scenario: a stationary obstacle overlapped by an approaching one. -/
def sepObsA : Obstacle :=
  { x := 100, y := 300, size := 40, color := "#FF0000", lightColor := "#FF6666",
    shape := "square", speedX := 0, speedY := 0, baseSpeed := 2,
    isBlind := false, blindTimer := 0, blindDuration := 0, lastBlindTime := 0,
    rotation := 0, rotationSpeed := 0, blindChance := 0.3,
    blindMin := 1000, blindMax := 3000, chaseAccuracy := 1 }

/-- Separation scenario: the obstacle moving toward `sepObsA`. -/
def sepObsB : Obstacle :=
  { x := 110, y := 300, size := 40, color := "#FFA500", lightColor := "#FFC266",
    shape := "hexagon", speedX := -1, speedY := 0, baseSpeed := 2,
    isBlind := false, blindTimer := 0, blindDuration := 0, lastBlindTime := 0,
    rotation := 0, rotationSpeed := 0, blindChance := 0.3,
    blindMin := 1000, blindMax := 3000, chaseAccuracy := 1 }

/-! ### Invariant predicates -/

/-- The two power flags agree (claim C10's invariant). -/
def FlagsEq (s : GameState) : Prop :=
  s.playerPower.hasPower = s.playerPower.active

/-- The player circle lies fully inside the canvas. -/
def PlayerInBounds (s : GameState) : Prop :=
  s.player.radius ≤ s.player.x ∧ s.player.x ≤ s.width - s.player.radius ∧
  s.player.radius ≤ s.player.y ∧ s.player.y ≤ s.height - s.player.radius

/-- The spawn point `(50, height / 2)` lies inside the canvas for this player radius:
the geometric side condition under which the player resets stay in bounds. -/
def SpawnInBounds (s : GameState) : Prop :=
  s.player.radius ≤ 50 ∧ 50 ≤ s.width - s.player.radius ∧
  s.player.radius ≤ s.height / 2 ∧ s.height / 2 ≤ s.height - s.player.radius

/-- A state property that only reads the power state, the player, and the canvas
dimensions — the shape of property preserved by the obstacle-phase record updates. -/
def PlayerStable (P : GameState → Prop) : Prop :=
  ∀ s t : GameState, t.playerPower = s.playerPower → t.player = s.player →
    t.width = s.width → t.height = s.height → P s → P t

/-- The player half of the clamp invariant together with its geometric side
condition. -/
def BoundsOK (s : GameState) : Prop :=
  SpawnInBounds s ∧ PlayerInBounds s

end

/-! ## Helper lemmas -/

/-- Distances whose vertical component vanishes evaluate exactly. -/
theorem sqrt_horiz (a : ℝ) (h : 0 ≤ a) : Real.sqrt (a * a + 0 * 0) = a := by
  have e : a * a + 0 * 0 = a * a := by ring
  rw [e, Real.sqrt_mul_self h]

theorem sqrt_horiz_neg (a : ℝ) (h : 0 ≤ a) : Real.sqrt (-a * -a + 0 * 0) = a := by
  have e : -a * -a + 0 * 0 = a * a := by ring
  rw [e, Real.sqrt_mul_self h]

/-- Evaluate a square root at a literal perfect square. -/
theorem sqrt_lit {a b : ℝ} (ha : 0 ≤ a) (h : a ^ 2 = b) : Real.sqrt b = a := by
  rw [← h, Real.sqrt_sq ha]

/-- A square root is at least `a` when the radicand is at least `a ^ 2`. -/
theorem sqrt_not_lt (a b : ℝ) (ha : 0 ≤ a) (h : a ^ 2 ≤ b) : ¬ Real.sqrt b < a :=
  not_lt.mpr ((Real.le_sqrt ha (le_trans (sq_nonneg a) h)).mpr h)

/-- The repulsion is a no-op outside the protection radius. -/
theorem entranceRepulsion_far (h : ℝ) (o : Obstacle)
    (hfar : ¬ Real.sqrt ((o.x - entranceX) * (o.x - entranceX) +
      (o.y - (entranceY h + entranceHeight / 2)) *
        (o.y - (entranceY h + entranceHeight / 2))) < entranceProtectionRadius) :
    entranceRepulsion h o = some o := by
  simp only [entranceRepulsion]
  rw [if_neg hfar]

/-- Positions are untouched by the rotation and blind-state phase. -/
theorem blindTransition_pos (r : Rng) (k : ℕ) (now : ℝ) (o : Obstacle) :
    (blindTransition r k now o).1.x = o.x ∧ (blindTransition r k now o).1.y = o.y := by
  simp only [blindTransition]
  split_ifs <;> simp

/-- The repulsion step only fails on the exact entrance midpoint. -/
theorem entranceRepulsion_isSome (h : ℝ) (o : Obstacle)
    (hne : ¬ (o.x = entranceX ∧ o.y = entranceY h + entranceHeight / 2)) :
    (entranceRepulsion h o).isSome = true := by
  simp only [entranceRepulsion]
  split_ifs with h1 h2
  · exfalso
    have hz : (o.x - entranceX) * (o.x - entranceX) +
        (o.y - (entranceY h + entranceHeight / 2)) *
        (o.y - (entranceY h + entranceHeight / 2)) ≤ 0 := Real.sqrt_eq_zero'.mp h2
    have hx2 : 0 ≤ (o.x - entranceX) * (o.x - entranceX) := mul_self_nonneg _
    have hy2 : 0 ≤ (o.y - (entranceY h + entranceHeight / 2)) *
        (o.y - (entranceY h + entranceHeight / 2)) := mul_self_nonneg _
    have hx0 : o.x - entranceX = 0 := by nlinarith
    have hy0 : o.y - (entranceY h + entranceHeight / 2) = 0 := by nlinarith
    exact hne ⟨sub_eq_zero.mp hx0, sub_eq_zero.mp hy0⟩
  · rfl
  · rfl

/-- The steal branch of `handleCollision` in symbolic form: outside the protection
radius, against a power-bearing obstacle, with no power held, the obstacle's shape is
reassigned from the draw made after the 30 particle draws. -/
theorem handleCollision_steal (r : Rng) (k : ℕ) (now : ℝ) (s : GameState) (o : Obstacle)
    (hfar : entranceProtectionRadius <
      Real.sqrt ((s.player.x - entranceX) * (s.player.x - entranceX) +
        (s.player.y - (entranceY s.height + entranceHeight / 2)) *
        (s.player.y - (entranceY s.height + entranceHeight / 2))))
    (hpow : (superPowers o.shape).isSome)
    (hhas : s.playerPower.hasPower = false) :
    (handleCollision r k now s o).2.1.shape =
      shapeTypes.getD (randIndex r (k + 30) shapeTypes.length) "undefined" := by
  simp only [handleCollision]
  rw [if_pos hfar, if_pos ⟨hpow, by simp [hhas]⟩]
  simp [createParticles]

/-! ## Claim theorems -/

/-- Claim C2, counterexample: `calculateSizeBasedSpeed` does not clamp sizes below 30
to the bound; at size 0 it returns 2.75, not 2.0, and the result leaves `[0.5, 2.0]`. -/
theorem calculateSizeBasedSpeed_no_clamp_cex :
    calculateSizeBasedSpeed 0 = 2.75 ∧ (2 : ℝ) < calculateSizeBasedSpeed 0 := by
  constructor <;> norm_num [calculateSizeBasedSpeed]

/-- Claim C2 (amended): `calculateSizeBasedSpeed` interpolates linearly without
clamping, so the result lies in `[0.5, 2.0]` when the size lies in `[30, 90]`, exceeds
2.0 for sizes below 30, and drops below 0.5 for sizes above 90. -/
theorem calculateSizeBasedSpeed_range (s : ℝ) :
    (30 ≤ s → s ≤ 90 → 0.5 ≤ calculateSizeBasedSpeed s ∧ calculateSizeBasedSpeed s ≤ 2) ∧
    (s < 30 → 2 < calculateSizeBasedSpeed s) ∧
    (90 < s → calculateSizeBasedSpeed s < 0.5) := by
  have h : calculateSizeBasedSpeed s = 2 - (s - 30) / 40 := by
    simp only [calculateSizeBasedSpeed]
    ring
  refine ⟨fun h1 h2 => ⟨?_, ?_⟩, fun h1 => ?_, fun h1 => ?_⟩ <;> rw [h] <;> linarith

theorem calculateSizeBasedSpeed_range_witness :
    ((30 : ℝ) ≤ 60 ∧ (60 : ℝ) ≤ 90 ∧
      0.5 ≤ calculateSizeBasedSpeed 60 ∧ calculateSizeBasedSpeed 60 ≤ 2) ∧
    ((20 : ℝ) < 30 ∧ 2 < calculateSizeBasedSpeed 20) ∧
    ((90 : ℝ) < 100 ∧ calculateSizeBasedSpeed 100 < 0.5) :=
  ⟨⟨by norm_num, by norm_num,
    ((calculateSizeBasedSpeed_range 60).1 (by norm_num) (by norm_num)).1,
    ((calculateSizeBasedSpeed_range 60).1 (by norm_num) (by norm_num)).2⟩,
   ⟨by norm_num, (calculateSizeBasedSpeed_range 20).2.1 (by norm_num)⟩,
   ⟨by norm_num, (calculateSizeBasedSpeed_range 100).2.2 (by norm_num)⟩⟩

/-- Claim C8: `activatePlayerPower` overwrites the whole power state: afterwards the
single `type` field holds the new kind, `endTime` is the current time plus the new
power's duration, and nothing of the previous power (its type, flags, or remaining
time) contributes, for every prior state including an already-active one. -/
theorem activate_power_replaces (pp : PlayerPower) (now : ℝ) (t : String) (p : Power)
    (h : superPowers t = some p) :
    activatePlayerPower now t pp =
      { active := true, type := some t, hasPower := true, endTime := now + p.duration } := by
  simp [activatePlayerPower, h]

theorem activate_power_replaces_witness :
    superPowers "star" = some ⟨"Shape Shifter", 5000, "#FFD700"⟩ ∧
    activatePlayerPower 100 "star"
        { active := true, type := some "star_reducer", endTime := 999, hasPower := true } =
      { active := true, type := some "star", hasPower := true, endTime := 100 + 5000 } :=
  ⟨rfl, activate_power_replaces _ 100 "star" ⟨"Shape Shifter", 5000, "#FFD700"⟩ rfl⟩

/-- Claim C9: while `success` holds, `update` is the identity on the simulation state
(player, trail, obstacles, particles, power state are all untouched), and both
`resetLevel` and `nextLevel` clear the flag. -/
theorem update_identity_on_success (r : Rng) (k : ℕ) (keys : Keys)
    (touch : Option (ℝ × ℝ)) (now : ℝ) (s : GameState) (h : s.success = true) :
    update r k keys touch now s = some (s, k) ∧
    ((resetLevel r k s).1).success = false ∧
    ((nextLevel r k s).1).success = false := by
  refine ⟨?_, ?_, ?_⟩
  · simp [update, h]
  · simp [resetLevel]
  · simp [nextLevel, resetPlayer]

theorem update_identity_on_success_witness :
    frozenState.success = true ∧
    update (constRng 0.5) 0 noKeys none 0 frozenState = some (frozenState, 0) :=
  ⟨rfl, (update_identity_on_success (constRng 0.5) 0 noKeys none 0 frozenState rfl).1⟩

/-- Claim C1: the steal branch draws the replacement shape from the full `shapeTypes`
list, and index 4 of that list is `"star"`, which is itself a key of `superPowers` —
so a steal can leave the obstacle carrying a power, contrary to the claim and to the
source's own comment that the power is removed permanently.  Here the player at
`(400, 300)` (distance 400 from the entrance midpoint) steals from a `star_reducer`
obstacle with the random stream constantly `0.3` (`Math.floor(0.3 * 15) = 4`). -/
theorem steal_reassignment_can_yield_power_kind :
    (handleCollision (constRng 0.3) 0 1000 stealState stealObs).2.1.shape = "star" ∧
    (superPowers (handleCollision (constRng 0.3) 0 1000 stealState stealObs).2.1.shape).isSome
      = true := by
  have hfar : entranceProtectionRadius <
      Real.sqrt ((stealState.player.x - entranceX) * (stealState.player.x - entranceX) +
        (stealState.player.y - (entranceY stealState.height + entranceHeight / 2)) *
        (stealState.player.y - (entranceY stealState.height + entranceHeight / 2))) := by
    have e : (stealState.player.x - entranceX) * (stealState.player.x - entranceX) +
        (stealState.player.y - (entranceY stealState.height + entranceHeight / 2)) *
        (stealState.player.y - (entranceY stealState.height + entranceHeight / 2))
        = 160000 := by
      norm_num [stealState, playerAt, entranceX, entranceY, entranceHeight]
    rw [e, sqrt_lit (a := 400) (by norm_num) (by norm_num)]
    norm_num [entranceProtectionRadius]
  have hshape : (handleCollision (constRng 0.3) 0 1000 stealState stealObs).2.1.shape
      = shapeTypes.getD (randIndex (constRng 0.3) 30 shapeTypes.length) "undefined" :=
    handleCollision_steal (constRng 0.3) 0 1000 stealState stealObs hfar (by rfl) rfl
  have hidx : randIndex (constRng 0.3) 30 shapeTypes.length = 4 := by
    have hfl : ⌊(0.3 : ℝ) * 15⌋ = 4 := by
      rw [Int.floor_eq_iff]
      norm_num
    simp [randIndex, constRng, shapeTypes, hfl]
  rw [hshape, hidx]
  exact ⟨rfl, rfl⟩

/-- Claim C3, counterexample: the entrance-repulsion direction computation is not
guarded by a `distance > 0` check.  For an obstacle exactly on the entrance midpoint
`(0, 300)` of a 600-high canvas, the per-tick motion divides by the zero distance and
a non-finite value is written into the speed fields (modelled as `none`). -/
theorem entrance_repulsion_unguarded_cex :
    obstacleMotion (constRng 0.5) 0 0 800 600 (playerAt 400 300) midpointObs = none := by
  norm_num [obstacleMotion, blindTransition, entranceRepulsion, midpointObs, constRng,
    entranceX, entranceY, entranceHeight, entranceProtectionRadius, Real.sqrt_zero]

/-- Claim C3 (amended): only the pursuit computation is guarded — at zero distance to
the player the velocity update is skipped for the tick — while the entrance repulsion
is unguarded, so the motion stays finite exactly when the obstacle is not on the
entrance midpoint. -/
theorem direction_guards_amended (r : Rng) (k : ℕ) (now w h : ℝ) (p : Player)
    (o : Obstacle) (speed : ℝ) :
    (p.x = o.x → p.y = o.y → chaseMove p speed o = o) ∧
    (¬ (o.x = entranceX ∧ o.y = entranceY h + entranceHeight / 2) →
      (obstacleMotion r k now w h p o).isSome = true) := by
  constructor
  · intro h1 h2
    simp [chaseMove, h1, h2, Real.sqrt_zero]
  · intro hne
    simp only [obstacleMotion]
    have hpos := blindTransition_pos r k now { o with rotation := o.rotation + o.rotationSpeed }
    have hs : (entranceRepulsion h
        (blindTransition r k now { o with rotation := o.rotation + o.rotationSpeed }).1).isSome
        = true := by
      apply entranceRepulsion_isSome
      rw [hpos.1, hpos.2]
      exact hne
    rcases Option.isSome_iff_exists.mp hs with ⟨o2, ho2⟩
    rw [ho2]
    rfl

theorem direction_guards_amended_witness :
    chaseMove (playerAt 400 300) 2 stealObs = stealObs ∧
    (obstacleMotion (constRng 0.5) 0 0 800 600 (playerAt 400 300) wallObsA).isSome = true :=
  ⟨(direction_guards_amended (constRng 0.5) 0 0 800 600 (playerAt 400 300) stealObs 2).1
      rfl rfl,
   (direction_guards_amended (constRng 0.5) 0 0 800 600 (playerAt 400 300) wallObsA 2).2
      (by norm_num [wallObsA, entranceX])⟩

/-- Claim C5, counterexample: the blind-speed clamp is applied per component, not to
the Euclidean magnitude.  A blind obstacle of size 30 (base speed 2) entering the tick
with speed `(5, 5)` is clamped to `(1, 1)`, whose magnitude `√2` exceeds
`0.5 × baseSpeed = 1`. -/
theorem blind_clamp_magnitude_cex :
    (blindMove (constRng 0.5) 0 (calculateSizeBasedSpeed 30) blindFastObs).1.speedX = 1 ∧
    (blindMove (constRng 0.5) 0 (calculateSizeBasedSpeed 30) blindFastObs).1.speedY = 1 ∧
    calculateSizeBasedSpeed 30 * 0.5 <
      Real.sqrt
        ((blindMove (constRng 0.5) 0 (calculateSizeBasedSpeed 30) blindFastObs).1.speedX *
          (blindMove (constRng 0.5) 0 (calculateSizeBasedSpeed 30) blindFastObs).1.speedX +
         (blindMove (constRng 0.5) 0 (calculateSizeBasedSpeed 30) blindFastObs).1.speedY *
          (blindMove (constRng 0.5) 0 (calculateSizeBasedSpeed 30) blindFastObs).1.speedY) := by
  have hs : calculateSizeBasedSpeed 30 = 2 := by norm_num [calculateSizeBasedSpeed]
  have hx : (blindMove (constRng 0.5) 0 (calculateSizeBasedSpeed 30) blindFastObs).1.speedX
      = 1 := by
    norm_num [blindMove, blindFastObs, constRng, hs, min_def, max_def]
  have hy : (blindMove (constRng 0.5) 0 (calculateSizeBasedSpeed 30) blindFastObs).1.speedY
      = 1 := by
    norm_num [blindMove, blindFastObs, constRng, hs, min_def, max_def]
  refine ⟨hx, hy, ?_⟩
  rw [hx, hy, hs]
  have : (1 : ℝ) * 1 + 1 * 1 = 2 := by norm_num
  rw [this]
  have h12 : (1 : ℝ) < Real.sqrt 2 := by
    rw [Real.lt_sqrt (by norm_num)]
    norm_num
  linarith

/-- Claim C5 (amended): after the blind perturbation, each velocity component is
clamped to `[-speed * 0.5, speed * 0.5]`; the clamp is per component, so only each
component (not the Euclidean magnitude) is bounded by half the base speed. -/
theorem blind_clamp_componentwise (r : Rng) (k : ℕ) (speed : ℝ) (o : Obstacle)
    (h : 0 ≤ speed) :
    |(blindMove r k speed o).1.speedX| ≤ speed * 0.5 ∧
    |(blindMove r k speed o).1.speedY| ≤ speed * 0.5 := by
  have hm : -(speed * 0.5) ≤ speed * 0.5 := by linarith
  constructor <;>
    · simp only [blindMove]
      rw [abs_le]
      exact ⟨le_max_left _ _, max_le hm (min_le_left _ _)⟩

theorem blind_clamp_componentwise_witness :
    (0 : ℝ) ≤ 2 ∧
    |(blindMove (constRng 0.5) 0 2 blindFastObs).1.speedX| ≤ 2 * 0.5 ∧
    |(blindMove (constRng 0.5) 0 2 blindFastObs).1.speedY| ≤ 2 * 0.5 :=
  ⟨by norm_num,
   (blind_clamp_componentwise (constRng 0.5) 0 2 blindFastObs (by norm_num)).1,
   (blind_clamp_componentwise (constRng 0.5) 0 2 blindFastObs (by norm_num)).2⟩

/-- Claim C7: a player strictly inside the entrance protection radius suffers no
collision consequence at all — `handleCollision` returns the state, the obstacle and
the draw counter unchanged, so the infected flag stays false and no game-over state
changes. -/
theorem protection_zone_no_consequence (r : Rng) (k : ℕ) (now : ℝ) (s : GameState)
    (o : Obstacle)
    (h : Real.sqrt ((s.player.x - entranceX) * (s.player.x - entranceX) +
        (s.player.y - (entranceY s.height + entranceHeight / 2)) *
        (s.player.y - (entranceY s.height + entranceHeight / 2))) <
      entranceProtectionRadius) :
    handleCollision r k now s o = (s, o, k) := by
  simp only [handleCollision]
  rw [if_neg (not_lt.mpr h.le)]

theorem protection_zone_no_consequence_witness :
    Real.sqrt ((protState.player.x - entranceX) * (protState.player.x - entranceX) +
        (protState.player.y - (entranceY protState.height + entranceHeight / 2)) *
        (protState.player.y - (entranceY protState.height + entranceHeight / 2))) <
      entranceProtectionRadius ∧
    handleCollision (constRng 0.5) 0 0 protState stealObs = (protState, stealObs, 0) := by
  have h : Real.sqrt ((protState.player.x - entranceX) * (protState.player.x - entranceX) +
      (protState.player.y - (entranceY protState.height + entranceHeight / 2)) *
      (protState.player.y - (entranceY protState.height + entranceHeight / 2))) <
      entranceProtectionRadius := by
    have e : (protState.player.x - entranceX) * (protState.player.x - entranceX) +
        (protState.player.y - (entranceY protState.height + entranceHeight / 2)) *
        (protState.player.y - (entranceY protState.height + entranceHeight / 2))
        = 2500 := by
      norm_num [protState, playerAt, entranceX, entranceY, entranceHeight]
    rw [e, sqrt_lit (a := 50) (by norm_num) (by norm_num)]
    norm_num [entranceProtectionRadius]
  exact ⟨h, protection_zone_no_consequence (constRng 0.5) 0 0 protState stealObs h⟩

/-- Claim C6: for overlapping obstacles at positive distance whose relative velocity
along the collision normal is negative, one `handleObstacleCollision` call moves each
obstacle by half the overlap along the normal in opposite directions, leaving the
centre distance exactly equal to `minDistance = size₁ + size₂`. -/
theorem obstacle_separation_exact (o1 o2 : Obstacle)
    (hpos : 0 < Real.sqrt ((o2.x - o1.x) * (o2.x - o1.x) + (o2.y - o1.y) * (o2.y - o1.y)))
    (hover : Real.sqrt ((o2.x - o1.x) * (o2.x - o1.x) + (o2.y - o1.y) * (o2.y - o1.y)) <
      o1.size + o2.size)
    (happr : (o2.speedX - o1.speedX) *
        ((o2.x - o1.x) /
          Real.sqrt ((o2.x - o1.x) * (o2.x - o1.x) + (o2.y - o1.y) * (o2.y - o1.y))) +
      (o2.speedY - o1.speedY) *
        ((o2.y - o1.y) /
          Real.sqrt ((o2.x - o1.x) * (o2.x - o1.x) + (o2.y - o1.y) * (o2.y - o1.y))) < 0) :
    Real.sqrt
      (((handleObstacleCollision o1 o2).2.x - (handleObstacleCollision o1 o2).1.x) *
        ((handleObstacleCollision o1 o2).2.x - (handleObstacleCollision o1 o2).1.x) +
       ((handleObstacleCollision o1 o2).2.y - (handleObstacleCollision o1 o2).1.y) *
        ((handleObstacleCollision o1 o2).2.y - (handleObstacleCollision o1 o2).1.y))
      = o1.size + o2.size := by
  have hd0 : Real.sqrt ((o2.x - o1.x) * (o2.x - o1.x) + (o2.y - o1.y) * (o2.y - o1.y))
      ≠ 0 := hpos.ne'
  have hdsq : Real.sqrt ((o2.x - o1.x) * (o2.x - o1.x) + (o2.y - o1.y) * (o2.y - o1.y)) *
      Real.sqrt ((o2.x - o1.x) * (o2.x - o1.x) + (o2.y - o1.y) * (o2.y - o1.y))
      = (o2.x - o1.x) * (o2.x - o1.x) + (o2.y - o1.y) * (o2.y - o1.y) :=
    Real.mul_self_sqrt (add_nonneg (mul_self_nonneg _) (mul_self_nonneg _))
  simp only [handleObstacleCollision]
  rw [if_pos hover, if_neg hd0, if_pos happr]
  have harg :
      (o2.x + (o2.x - o1.x) /
          Real.sqrt ((o2.x - o1.x) * (o2.x - o1.x) + (o2.y - o1.y) * (o2.y - o1.y)) *
          (o1.size + o2.size -
            Real.sqrt ((o2.x - o1.x) * (o2.x - o1.x) + (o2.y - o1.y) * (o2.y - o1.y))) * 0.5 -
        (o1.x - (o2.x - o1.x) /
          Real.sqrt ((o2.x - o1.x) * (o2.x - o1.x) + (o2.y - o1.y) * (o2.y - o1.y)) *
          (o1.size + o2.size -
            Real.sqrt ((o2.x - o1.x) * (o2.x - o1.x) + (o2.y - o1.y) * (o2.y - o1.y))) * 0.5)) *
      (o2.x + (o2.x - o1.x) /
          Real.sqrt ((o2.x - o1.x) * (o2.x - o1.x) + (o2.y - o1.y) * (o2.y - o1.y)) *
          (o1.size + o2.size -
            Real.sqrt ((o2.x - o1.x) * (o2.x - o1.x) + (o2.y - o1.y) * (o2.y - o1.y))) * 0.5 -
        (o1.x - (o2.x - o1.x) /
          Real.sqrt ((o2.x - o1.x) * (o2.x - o1.x) + (o2.y - o1.y) * (o2.y - o1.y)) *
          (o1.size + o2.size -
            Real.sqrt ((o2.x - o1.x) * (o2.x - o1.x) + (o2.y - o1.y) * (o2.y - o1.y))) * 0.5)) +
      (o2.y + (o2.y - o1.y) /
          Real.sqrt ((o2.x - o1.x) * (o2.x - o1.x) + (o2.y - o1.y) * (o2.y - o1.y)) *
          (o1.size + o2.size -
            Real.sqrt ((o2.x - o1.x) * (o2.x - o1.x) + (o2.y - o1.y) * (o2.y - o1.y))) * 0.5 -
        (o1.y - (o2.y - o1.y) /
          Real.sqrt ((o2.x - o1.x) * (o2.x - o1.x) + (o2.y - o1.y) * (o2.y - o1.y)) *
          (o1.size + o2.size -
            Real.sqrt ((o2.x - o1.x) * (o2.x - o1.x) + (o2.y - o1.y) * (o2.y - o1.y))) * 0.5)) *
      (o2.y + (o2.y - o1.y) /
          Real.sqrt ((o2.x - o1.x) * (o2.x - o1.x) + (o2.y - o1.y) * (o2.y - o1.y)) *
          (o1.size + o2.size -
            Real.sqrt ((o2.x - o1.x) * (o2.x - o1.x) + (o2.y - o1.y) * (o2.y - o1.y))) * 0.5 -
        (o1.y - (o2.y - o1.y) /
          Real.sqrt ((o2.x - o1.x) * (o2.x - o1.x) + (o2.y - o1.y) * (o2.y - o1.y)) *
          (o1.size + o2.size -
            Real.sqrt ((o2.x - o1.x) * (o2.x - o1.x) + (o2.y - o1.y) * (o2.y - o1.y))) * 0.5))
      = (o1.size + o2.size) ^ 2 := by
    field_simp
    nlinarith [hdsq, sq_nonneg (o1.size + o2.size)]
  rw [harg, Real.sqrt_sq (le_of_lt (lt_trans hpos hover))]

theorem obstacle_separation_exact_witness :
    (0 < Real.sqrt ((sepObsB.x - sepObsA.x) * (sepObsB.x - sepObsA.x) +
        (sepObsB.y - sepObsA.y) * (sepObsB.y - sepObsA.y))) ∧
    Real.sqrt
      (((handleObstacleCollision sepObsA sepObsB).2.x -
          (handleObstacleCollision sepObsA sepObsB).1.x) *
        ((handleObstacleCollision sepObsA sepObsB).2.x -
          (handleObstacleCollision sepObsA sepObsB).1.x) +
       ((handleObstacleCollision sepObsA sepObsB).2.y -
          (handleObstacleCollision sepObsA sepObsB).1.y) *
        ((handleObstacleCollision sepObsA sepObsB).2.y -
          (handleObstacleCollision sepObsA sepObsB).1.y))
      = sepObsA.size + sepObsB.size := by
  have e : (sepObsB.x - sepObsA.x) * (sepObsB.x - sepObsA.x) +
      (sepObsB.y - sepObsA.y) * (sepObsB.y - sepObsA.y) = 100 := by
    norm_num [sepObsA, sepObsB]
  have hs : Real.sqrt ((sepObsB.x - sepObsA.x) * (sepObsB.x - sepObsA.x) +
      (sepObsB.y - sepObsA.y) * (sepObsB.y - sepObsA.y)) = 10 := by
    rw [e]
    exact sqrt_lit (by norm_num) (by norm_num)
  refine ⟨by rw [hs]; norm_num, ?_⟩
  apply obstacle_separation_exact
  · rw [hs]; norm_num
  · rw [hs]; norm_num [sepObsA, sepObsB]
  · rw [hs]; norm_num [sepObsA, sepObsB]

/-! ## Invariant preservation through a tick -/

/-- A property preserved by each step survives an `Option`-valued fold. -/
theorem foldlM_option_preserves {α β : Type} (P : α → Prop) (f : α → β → Option α)
    (hf : ∀ a b a2, P a → f a b = some a2 → P a2) :
    ∀ (l : List β) (a res : α), P a → l.foldlM f a = some res → P res := by
  intro l
  induction l with
  | nil =>
    intro a res ha h
    simp only [List.foldlM_nil, Option.pure_def, Option.some.injEq] at h
    exact h ▸ ha
  | cons b t ih =>
    intro a res ha h
    simp only [List.foldlM_cons] at h
    obtain ⟨a2, h1, h2⟩ := Option.bind_eq_some.mp h
    exact ih a2 res (hf a b a2 ha h1) h2

/-- Generic preservation through the collision-hit block. -/
theorem collisionHitPhase_pres (P : GameState → Prop)
    (hcongr : ∀ s t : GameState, t.playerPower = s.playerPower → t.player = s.player →
      t.width = s.width → t.height = s.height → P s → P t)
    (hHC : ∀ r k now s o, P s → P (handleCollision r k now s o).1)
    (r : Rng) (k : ℕ) (now : ℝ) (s : GameState) (i : ℕ) (h : P s) :
    P (collisionHitPhase r k now s i).1 := by
  cases hg : s.obstacles.get? i with
  | none => simp only [collisionHitPhase, hg]; exact h
  | some o =>
    simp only [collisionHitPhase, hg]
    split_ifs with hc
    · exact hcongr (handleCollision r k now s o).1 _ (by simp) (by simp) (by simp) (by simp)
        (hHC r k now s o h)
    · exact h

/-- Generic preservation through the power-effect block. -/
theorem powerEffectPhase_pres (P : GameState → Prop)
    (hcongr : ∀ s t : GameState, t.playerPower = s.playerPower → t.player = s.player →
      t.width = s.width → t.height = s.height → P s → P t)
    (r : Rng) (k : ℕ) (now : ℝ) (s : GameState) (i : ℕ) (h : P s) :
    P (powerEffectPhase r k now s i).1 := by
  cases hg : s.obstacles.get? i with
  | none => simp only [powerEffectPhase, hg]; exact h
  | some o =>
    simp only [powerEffectPhase, hg]
    split_ifs with h1
    · cases ht : s.playerPower.type with
      | none => simp only [ht]; exact h
      | some t =>
        simp only [ht]
        split_ifs with h2 h3 h4
        · exact hcongr s _ (by simp) (by simp) (by simp) (by simp) h
        · exact hcongr s _ (by simp) (by simp) (by simp) (by simp) h
        · exact hcongr s _ (by simp) (by simp) (by simp) (by simp) h
        · exact h
    · exact h

/-- Generic preservation through the per-obstacle collision passes. -/
theorem playerCollisionPhase_pres (P : GameState → Prop)
    (hcongr : ∀ s t : GameState, t.playerPower = s.playerPower → t.player = s.player →
      t.width = s.width → t.height = s.height → P s → P t)
    (hHC : ∀ r k now s o, P s → P (handleCollision r k now s o).1)
    (r : Rng) (k : ℕ) (now : ℝ) (s : GameState) (i : ℕ) (h : P s) :
    P (playerCollisionPhase r k now s i).1 := by
  simp only [playerCollisionPhase]
  exact powerEffectPhase_pres P hcongr _ _ _ _ _
    (collisionHitPhase_pres P hcongr hHC r k now s i h)

/-- Generic preservation through one outer-loop iteration of `updateObstacles`. -/
theorem obstacleStep_pres (P : GameState → Prop)
    (hcongr : ∀ s t : GameState, t.playerPower = s.playerPower → t.player = s.player →
      t.width = s.width → t.height = s.height → P s → P t)
    (hHC : ∀ r k now s o, P s → P (handleCollision r k now s o).1)
    (r : Rng) (now : ℝ) (sk : GameState × ℕ) (i : ℕ) (res : GameState × ℕ)
    (h : P sk.1) (hstep : obstacleStep r now sk i = some res) : P res.1 := by
  simp only [obstacleStep] at hstep
  cases hg : sk.1.obstacles.get? i with
  | none =>
    simp only [hg, Option.some.injEq] at hstep
    exact hstep ▸ h
  | some o =>
    simp only [hg] at hstep
    cases hm : obstacleMotion r sk.2 now sk.1.width sk.1.height sk.1.player o with
    | none => simp only [hm] at hstep; cases hstep
    | some ok =>
      simp only [hm, Option.some.injEq] at hstep
      subst hstep
      exact playerCollisionPhase_pres P hcongr hHC _ _ _ _ _
        (hcongr sk.1 _ (by simp) (by simp) (by simp) (by simp) h)

/-- Generic preservation through the whole obstacle loop. -/
theorem updateObstacles_pres (P : GameState → Prop)
    (hcongr : ∀ s t : GameState, t.playerPower = s.playerPower → t.player = s.player →
      t.width = s.width → t.height = s.height → P s → P t)
    (hHC : ∀ r k now s o, P s → P (handleCollision r k now s o).1)
    (r : Rng) (now : ℝ) (s : GameState) (k : ℕ) (res : GameState × ℕ)
    (h : P s) (hupd : updateObstacles r now s k = some res) : P res.1 := by
  refine foldlM_option_preserves (fun sk => P sk.1) _ ?_
    (List.range s.obstacles.length) (s, k) res h hupd
  intro a b a2 ha hstep
  exact obstacleStep_pres P hcongr hHC r now a b a2 ha hstep

/-- `FlagsEq` only reads the power state. -/
theorem flagsEq_congr (s t : GameState) (h1 : t.playerPower = s.playerPower)
    (_ : t.player = s.player) (_ : t.width = s.width) (_ : t.height = s.height)
    (h : FlagsEq s) : FlagsEq t := by
  unfold FlagsEq at *
  rw [h1]
  exact h

/-- `FlagsEq` transfers along an unchanged power state. -/
theorem flagsEq_of_pp (s t : GameState) (h1 : t.playerPower = s.playerPower)
    (h : FlagsEq s) : FlagsEq t := by
  unfold FlagsEq at *
  rw [h1]
  exact h

/-- Both flag writers inside `handleCollision` set the flags together. -/
theorem handleCollision_flagsEq (r : Rng) (k : ℕ) (now : ℝ) (s : GameState)
    (o : Obstacle) (h : FlagsEq s) : FlagsEq (handleCollision r k now s o).1 := by
  simp only [handleCollision]
  split_ifs <;>
    simp_all [FlagsEq, activatePlayerPower, resetPlayer, deactivatePlayerPower]

/-- The stuck check either keeps the power state or deactivates it. -/
theorem checkIfStuck_flagsEq (r : Rng) (k : ℕ) (s : GameState) (h : FlagsEq s) :
    FlagsEq (checkIfStuck r k s).1 := by
  simp only [checkIfStuck]
  split_ifs <;>
    simp_all [FlagsEq, resetLevel, deactivatePlayerPower]

set_option maxHeartbeats 1000000 in
/-- Player motion never writes the power flags. -/
theorem updatePlayer_flagsEq (r : Rng) (k : ℕ) (keys : Keys) (touch : Option (ℝ × ℝ))
    (s : GameState) (h : FlagsEq s) : FlagsEq (updatePlayer r k keys touch s).1 := by
  simp only [updatePlayer]
  apply checkIfStuck_flagsEq
  refine flagsEq_of_pp s _ ?_ h
  rw [apply_ite GameState.playerPower]
  simp

/-- Claim C10: in every reachable state the two power flags coincide — the initial
state has both false, `activatePlayerPower` sets both true, `deactivatePlayerPower`
sets both false, and a whole simulation tick (which reaches every other writer)
preserves the equality, so a state with `hasPower` but not `active` is unreachable and
the infection guard on `!active` coincides with `!hasPower`. -/
theorem hasPower_active_coincide :
    initialPlayerPower.hasPower = initialPlayerPower.active ∧
    (∀ (now : ℝ) (t : String) (pp : PlayerPower),
      (activatePlayerPower now t pp).hasPower = (activatePlayerPower now t pp).active) ∧
    (∀ pp : PlayerPower,
      (deactivatePlayerPower pp).hasPower = (deactivatePlayerPower pp).active) ∧
    (∀ (r : Rng) (k : ℕ) (keys : Keys) (touch : Option (ℝ × ℝ)) (now : ℝ)
      (s : GameState) (res : GameState × ℕ), FlagsEq s →
      update r k keys touch now s = some res → FlagsEq res.1) := by
  refine ⟨rfl, fun now t pp => rfl, fun pp => rfl, ?_⟩
  intro r k keys touch now s res h hupd
  simp only [update] at hupd
  by_cases hs : s.success = true
  · rw [if_neg (not_not_intro hs)] at hupd
    simp only [Option.some.injEq] at hupd
    exact hupd ▸ h
  · rw [if_pos hs] at hupd
    cases hm : updateObstacles r now (updatePlayer r k keys touch s).1
        (updatePlayer r k keys touch s).2 with
    | none => rw [hm] at hupd; cases hupd
    | some sk =>
      rw [hm] at hupd
      simp only [Option.some.injEq] at hupd
      subst hupd
      have h2 := updateObstacles_pres FlagsEq flagsEq_congr handleCollision_flagsEq
        r now (updatePlayer r k keys touch s).1 (updatePlayer r k keys touch s).2 sk
        (updatePlayer_flagsEq r k keys touch s h) hm
      exact flagsEq_of_pp sk.1 _ (by simp) h2

theorem hasPower_active_coincide_witness :
    FlagsEq frozenState ∧
    update (constRng 0.5) 0 noKeys none 0 frozenState = some (frozenState, 0) ∧
    FlagsEq frozenState :=
  ⟨rfl, by simp [update, frozenState],
   hasPower_active_coincide.2.2.2 (constRng 0.5) 0 noKeys none 0 frozenState
     (frozenState, 0) rfl (by simp [update, frozenState])⟩

/-! ## The player half of the clamp invariant -/

/-- `BoundsOK` only reads the player and the canvas dimensions. -/
theorem boundsOK_congr3 (s t : GameState)
    (h2 : t.player = s.player) (h3 : t.width = s.width) (h4 : t.height = s.height)
    (h : BoundsOK s) : BoundsOK t := by
  unfold BoundsOK SpawnInBounds PlayerInBounds at *
  rw [h2, h3, h4]
  exact h

/-- `boundsOK_congr3` in the argument shape of the generic preservation lemmas. -/
theorem boundsOK_congr (s t : GameState) (_ : t.playerPower = s.playerPower)
    (h2 : t.player = s.player) (h3 : t.width = s.width) (h4 : t.height = s.height)
    (h : BoundsOK s) : BoundsOK t :=
  boundsOK_congr3 s t h2 h3 h4 h

/-- A player reset lands on the spawn point, which the side condition keeps in
bounds. -/
theorem resetPlayer_boundsOK (s : GameState) (hg : SpawnInBounds s) :
    BoundsOK (resetPlayer s) := by
  obtain ⟨g1, g2, g3, g4⟩ := hg
  exact ⟨⟨g1, g2, g3, g4⟩, g1, g2, g3, g4⟩

/-- A level reset also lands the player on the spawn point. -/
theorem resetLevel_boundsOK (r : Rng) (k : ℕ) (s : GameState) (hg : SpawnInBounds s) :
    BoundsOK (resetLevel r k s).1 := by
  obtain ⟨g1, g2, g3, g4⟩ := hg
  exact ⟨⟨g1, g2, g3, g4⟩, g1, g2, g3, g4⟩

/-- `handleCollision` leaves the player alone or resets it to spawn. -/
theorem handleCollision_boundsOK (r : Rng) (k : ℕ) (now : ℝ) (s : GameState)
    (o : Obstacle) (h : BoundsOK s) : BoundsOK (handleCollision r k now s o).1 := by
  simp only [handleCollision]
  split_ifs with h1 h2 h3
  · exact boundsOK_congr3 s _ (by simp) (by simp) (by simp) h
  · exact h
  · exact resetPlayer_boundsOK _ h.1
  · exact h

/-- The stuck check leaves the player alone or resets the level. -/
theorem checkIfStuck_boundsOK (r : Rng) (k : ℕ) (s : GameState) (h : BoundsOK s) :
    BoundsOK (checkIfStuck r k s).1 := by
  simp only [checkIfStuck]
  split_ifs with h1 h2
  · exact boundsOK_congr3 _ _ (by simp) (by simp) (by simp)
      (resetLevel_boundsOK r k { s with stuckTimer := s.stuckTimer + 16 } h.1)
  · exact h
  · exact h

/-- The movement block never changes the player's radius. -/
theorem movePlayer_radius (keys : Keys) (touch : Option (ℝ × ℝ)) (p : Player) :
    (movePlayer keys touch p).radius = p.radius := by
  cases touch <;> simp [movePlayer, apply_ite Player.radius, ite_self]

set_option maxHeartbeats 1000000 in
/-- After `updatePlayer` the player is clamped into the canvas (or reset to spawn by
the stuck check), whatever the intent was. -/
theorem updatePlayer_boundsOK (r : Rng) (k : ℕ) (keys : Keys) (touch : Option (ℝ × ℝ))
    (s : GameState) (hg : SpawnInBounds s) :
    BoundsOK (updatePlayer r k keys touch s).1 := by
  have hx : s.player.radius ≤ s.width - s.player.radius := le_trans hg.1 hg.2.1
  have hy : s.player.radius ≤ s.height - s.player.radius :=
    le_trans hg.2.2.1 hg.2.2.2
  have hrad := movePlayer_radius keys touch s.player
  simp only [updatePlayer]
  apply checkIfStuck_boundsOK
  split_ifs with he <;>
  · refine ⟨⟨?_, ?_, ?_, ?_⟩, ?_, ?_, ?_, ?_⟩ <;>
      simp only [updatePlayerTrail, clampPlayer, hrad]
    · exact hg.1
    · exact hg.2.1
    · exact hg.2.2.1
    · exact hg.2.2.2
    · exact le_max_left _ _
    · exact max_le hx (min_le_left _ _)
    · exact le_max_left _ _
    · exact max_le hy (min_le_left _ _)

/-- Claim C4 (amended): at the end of every simulation tick the player's position lies
within `[radius, dimension - radius]` on both axes; the obstacle half of the claimed
invariant does not survive the pairwise separation step (see the counterexample). -/
theorem player_clamp_invariant (r : Rng) (k : ℕ) (keys : Keys)
    (touch : Option (ℝ × ℝ)) (now : ℝ) (s : GameState) (res : GameState × ℕ)
    (hg : SpawnInBounds s) (hs : s.success = false)
    (hupd : update r k keys touch now s = some res) :
    PlayerInBounds res.1 := by
  simp only [update] at hupd
  rw [if_pos (by simp [hs])] at hupd
  cases hm : updateObstacles r now (updatePlayer r k keys touch s).1
      (updatePlayer r k keys touch s).2 with
  | none => rw [hm] at hupd; cases hupd
  | some sk =>
    rw [hm] at hupd
    simp only [Option.some.injEq] at hupd
    subst hupd
    have h1 : BoundsOK (updatePlayer r k keys touch s).1 :=
      updatePlayer_boundsOK r k keys touch s hg
    have h2 := updateObstacles_pres BoundsOK boundsOK_congr handleCollision_boundsOK
      r now (updatePlayer r k keys touch s).1 (updatePlayer r k keys touch s).2 sk h1 hm
    exact (boundsOK_congr sk.1 _ (by simp) (by simp) (by simp) (by simp) h2).2

/-- One tick on the empty-field state: the player just sits (clamped), the trail
grows, and the obstacle loop is empty. -/
theorem emptyField_update_eval :
    update (constRng 0.5) 0 noKeys none 0 emptyFieldState = some (emptyFieldEnd, 0) := by
  norm_num [update, updatePlayer, movePlayer, clampPlayer, updatePlayerTrail,
    checkIfStuck, checkExitCollision, updateObstacles, updateParticles,
    emptyFieldState, emptyFieldEnd, playerAt, wallP1, noKeys, constRng,
    min_def, max_def, positionChangeThreshold, stuckThreshold, List.foldlM_nil]

theorem player_clamp_invariant_witness :
    SpawnInBounds emptyFieldState ∧ emptyFieldState.success = false ∧
    PlayerInBounds emptyFieldEnd :=
  ⟨by norm_num [SpawnInBounds, emptyFieldState, playerAt], rfl,
   player_clamp_invariant (constRng 0.5) 0 noKeys none 0 emptyFieldState
     (emptyFieldEnd, 0) (by norm_num [SpawnInBounds, emptyFieldState, playerAt]) rfl
     emptyField_update_eval⟩

/-! ### Evaluation of one tick on the wall scenario -/

theorem wall_updatePlayer_eval :
    updatePlayer (constRng 0.5) 0 noKeys none wallState = (wallS1, 0) := by
  norm_num [updatePlayer, movePlayer, clampPlayer, updatePlayerTrail, checkIfStuck,
    checkExitCollision, wallState, wallS1, wallP1, playerAt, noKeys, constRng,
    min_def, max_def, positionChangeThreshold, stuckThreshold]

theorem wall_motionA_eval :
    obstacleMotion (constRng 0.5) 0 0 800 600 wallP1 wallObsA = some (wallObsA1, 2) := by
  have h759 : Real.sqrt 576081 = 759 := sqrt_lit (by norm_num) (by norm_num)
  norm_num [obstacleMotion, blindTransition, entranceRepulsion, motionAfterRepulsion,
    blindMove, bounceX, bounceY, calculateSizeBasedSpeed, wallObsA, wallObsA1, wallP1,
    constRng, entranceX, entranceY, entranceHeight, entranceProtectionRadius,
    elasticity, friction, min_def, max_def, h759]

theorem wall_pairA_eval :
    handleObstacleCollision wallObsA1 wallObsB = (wallObsAEnd, wallObsBMid) := by
  have h59 : Real.sqrt 3481 = 59 := sqrt_lit (by norm_num) (by norm_num)
  norm_num [handleObstacleCollision, wallObsA1, wallObsB, wallObsAEnd, wallObsBMid,
    elasticity, h59]

theorem wall_pairwise0_eval :
    pairwisePass 0 [wallObsA1, wallObsB] = [wallObsAEnd, wallObsBMid] := by
  have hlen : (([wallObsA1, wallObsB] : List Obstacle)).length = 2 := rfl
  simp only [pairwisePass, hlen, show List.range 2 = [0, 1] from rfl,
    List.foldl_cons, List.foldl_nil]
  norm_num [wall_pairA_eval]

theorem wall_playerPhase0_eval :
    playerCollisionPhase (constRng 0.5) 2 0 wallS2 0 = (wallS2, 2) := by
  have h369 : Real.sqrt 136530.25 = 369.5 := sqrt_lit (by norm_num) (by norm_num)
  have harg : (wallP1.x - wallObsAEnd.x) * (wallP1.x - wallObsAEnd.x) +
      (wallP1.y - wallObsAEnd.y) * (wallP1.y - wallObsAEnd.y) = 136530.25 := by
    norm_num [wallP1, wallObsAEnd]
  have hcr : collisionRadius wallObsAEnd.shape wallObsAEnd.size = 20 := by
    norm_num [collisionRadius, wallObsAEnd]
  have hcc : ¬ checkCollision wallP1 wallObsAEnd := by
    simp only [checkCollision]
    rw [harg, hcr, h369]
    norm_num [wallP1]
  have hg : wallS2.obstacles.get? 0 = some wallObsAEnd := rfl
  have hpl : wallS2.player = wallP1 := rfl
  have hpp : wallS2.playerPower = initialPlayerPower := rfl
  simp only [playerCollisionPhase, collisionHitPhase, hg, hpl]
  rw [if_neg hcc]
  simp only [powerEffectPhase, hg, hpl, hpp, initialPlayerPower]
  simp

theorem wall_step0_eval :
    obstacleStep (constRng 0.5) 0 (wallS1, 0) 0 = some (wallS2, 2) := by
  have h1 : wallS1.obstacles.get? 0 = some wallObsA := rfl
  have hmot : obstacleMotion (constRng 0.5) 0 0 wallS1.width wallS1.height
      wallS1.player wallObsA = some (wallObsA1, 2) := by
    rw [show wallS1.width = (800 : ℝ) from rfl, show wallS1.height = (600 : ℝ) from rfl,
      show wallS1.player = wallP1 from rfl]
    exact wall_motionA_eval
  simp only [obstacleStep, h1, hmot]
  rw [show wallS1.obstacles.set 0 wallObsA1 = [wallObsA1, wallObsB] from rfl,
    wall_pairwise0_eval]
  rw [show ({ wallS1 with obstacles := [wallObsAEnd, wallObsBMid] } : GameState)
      = wallS2 from rfl]
  rw [wall_playerPhase0_eval]

theorem wall_motionB_eval :
    obstacleMotion (constRng 0.5) 2 0 800 600 wallP1 wallObsBMid
      = some (wallObsBEnd, 4) := by
  simp only [obstacleMotion]
  have hbt : blindTransition (constRng 0.5) 2 0
      { wallObsBMid with rotation := wallObsBMid.rotation + wallObsBMid.rotationSpeed }
      = ({ wallObsBMid with blindTimer := 16 }, 2) := by
    norm_num [blindTransition, wallObsBMid]
  rw [hbt]
  rw [entranceRepulsion_far 600 { wallObsBMid with blindTimer := 16 }
    (sqrt_not_lt entranceProtectionRadius _ (by norm_num [entranceProtectionRadius])
      (by norm_num [wallObsBMid, entranceX, entranceY, entranceHeight,
        entranceProtectionRadius]))]
  norm_num [motionAfterRepulsion, blindMove, bounceX, bounceY, calculateSizeBasedSpeed,
    wallObsBMid, wallObsBEnd, wallP1, constRng, elasticity, friction, min_def, max_def]

theorem wall_pairB_eval :
    handleObstacleCollision wallObsBEnd wallObsAEnd = (wallObsBEnd, wallObsAEnd) := by
  simp only [handleObstacleCollision]
  rw [if_neg (sqrt_not_lt (wallObsBEnd.size + wallObsAEnd.size) _
    (by norm_num [wallObsBEnd, wallObsAEnd])
    (by norm_num [wallObsBEnd, wallObsAEnd]))]

theorem wall_pairwise1_eval :
    pairwisePass 1 [wallObsAEnd, wallObsBEnd] = [wallObsAEnd, wallObsBEnd] := by
  have hlen : (([wallObsAEnd, wallObsBEnd] : List Obstacle)).length = 2 := rfl
  simp only [pairwisePass, hlen, show List.range 2 = [0, 1] from rfl,
    List.foldl_cons, List.foldl_nil]
  norm_num [wall_pairB_eval]

theorem wall_playerPhase1_eval :
    playerCollisionPhase (constRng 0.5) 4 0 wallStateEnd 1 = (wallStateEnd, 4) := by
  have h288 : Real.sqrt 83443.79704896 = 288.8664 := sqrt_lit (by norm_num) (by norm_num)
  have harg : (wallP1.x - wallObsBEnd.x) * (wallP1.x - wallObsBEnd.x) +
      (wallP1.y - wallObsBEnd.y) * (wallP1.y - wallObsBEnd.y) = 83443.79704896 := by
    norm_num [wallP1, wallObsBEnd]
  have hcr : collisionRadius wallObsBEnd.shape wallObsBEnd.size = 20 := by
    norm_num [collisionRadius, wallObsBEnd]
  have hcc : ¬ checkCollision wallP1 wallObsBEnd := by
    simp only [checkCollision]
    rw [harg, hcr, h288]
    norm_num [wallP1]
  have hg : wallStateEnd.obstacles.get? 1 = some wallObsBEnd := rfl
  have hpl : wallStateEnd.player = wallP1 := rfl
  have hpp : wallStateEnd.playerPower = initialPlayerPower := rfl
  simp only [playerCollisionPhase, collisionHitPhase, hg, hpl]
  rw [if_neg hcc]
  simp only [powerEffectPhase, hg, hpl, hpp, initialPlayerPower]
  simp

theorem wall_step1_eval :
    obstacleStep (constRng 0.5) 0 (wallS2, 2) 1 = some (wallStateEnd, 4) := by
  have h1 : wallS2.obstacles.get? 1 = some wallObsBMid := rfl
  have hmot : obstacleMotion (constRng 0.5) 2 0 wallS2.width wallS2.height
      wallS2.player wallObsBMid = some (wallObsBEnd, 4) := by
    rw [show wallS2.width = (800 : ℝ) from rfl, show wallS2.height = (600 : ℝ) from rfl,
      show wallS2.player = wallP1 from rfl]
    exact wall_motionB_eval
  simp only [obstacleStep, h1, hmot]
  rw [show wallS2.obstacles.set 1 wallObsBEnd = [wallObsAEnd, wallObsBEnd] from rfl,
    wall_pairwise1_eval]
  rw [show ({ wallS2 with obstacles := [wallObsAEnd, wallObsBEnd] } : GameState)
      = wallStateEnd from rfl]
  rw [wall_playerPhase1_eval]

theorem wall_updateObstacles_eval :
    updateObstacles (constRng 0.5) 0 wallS1 0 = some (wallStateEnd, 4) := by
  have hlen : wallS1.obstacles.length = 2 := rfl
  simp only [updateObstacles, hlen, show List.range 2 = [0, 1] from rfl,
    List.foldlM_cons, List.foldlM_nil]
  rw [wall_step0_eval]
  show obstacleStep (constRng 0.5) 0 (wallS2, 2) 1 >>= pure = some (wallStateEnd, 4)
  rw [wall_step1_eval]
  rfl

theorem wall_update_eval :
    update (constRng 0.5) 0 noKeys none 0 wallState = some (wallStateEnd, 4) := by
  simp only [update]
  rw [if_pos (show ¬ wallState.success = true by norm_num [wallState])]
  rw [wall_updatePlayer_eval]
  dsimp only []
  rw [wall_updateObstacles_eval]
  dsimp only []
  rw [show updateParticles wallStateEnd.particles = [] from rfl]
  rfl

/-- Claim C4, counterexample: two blind overlapping obstacles near the right wall of
an 800x600 canvas.  During a single tick, the pairwise separation step pushes obstacle
A from `x = 759` to `x = 769.5`, past `width - size = 760`, and nothing re-clamps it
before the tick ends — so the claimed end-of-tick obstacle bound fails. -/
theorem separation_moves_obstacle_out_of_bounds_cex :
    update (constRng 0.5) 0 noKeys none 0 wallState = some (wallStateEnd, 4) ∧
    wallStateEnd.obstacles.get? 0 = some wallObsAEnd ∧
    wallStateEnd.width - wallObsAEnd.size < wallObsAEnd.x :=
  ⟨wall_update_eval, rfl, by norm_num [wallStateEnd, wallObsAEnd]⟩

end LifeEscape
